import Mathlib

/-!
Shallow embedding of the ProjectMonitor deadline-evaluation engine:
`src/data/models.py` (entities `Milestone`, `Project` and their derived
properties) and `src/logic/deadline_checker.py` (`DeadlineChecker`).

Dates are modelled as integers (a day number); `date.today()` is passed
explicitly as a `today : Int` parameter.  Python dict alerts become the
`Alert` structure with the five fields used by the code.  Python string
formatting is reproduced with string concatenation.
-/

namespace ProjectMonitor

/-- `ProjectStatus` enum from models.py. -/
inductive ProjectStatus where
  | planejamento
  | em_andamento
  | concluido
  | paralisado
  | cancelado
deriving DecidableEq, Repr

/-- `RiskLevel` enum from models.py. -/
inductive RiskLevel where
  | baixo
  | medio
  | alto
  | critico
deriving DecidableEq, Repr

/-- `Milestone` entity from models.py (datetime metadata omitted: none exists
on this entity).  `status` is a free string in the source ("pendente",
"concluido", "atrasado"). -/
structure Milestone where
  id : String
  title : String
  expected_date : Int
  actual_date : Option Int := none
  status : String := "pendente"
deriving DecidableEq, Repr

/-- `Milestone.is_overdue` from models.py: false when completed (actual date
present or status "concluido"), otherwise `today > expected_date`. -/
def Milestone.is_overdue (today : Int) (m : Milestone) : Bool :=
  if m.actual_date.isSome || m.status == "concluido" then false
  else today > m.expected_date

/-- `Milestone.days_until` from models.py: `None` when completed, otherwise
`expected_date - today` (negative means overdue). -/
def Milestone.days_until (today : Int) (m : Milestone) : Option Int :=
  if m.actual_date.isSome || m.status == "concluido" then none
  else some (m.expected_date - today)

/-- `Project` entity from models.py.  The `datetime` metadata fields
(`created_at`, `last_updated`) and the `recent_updates` cache are omitted:
nothing in the deadline checker reads them. -/
structure Project where
  id : String
  name : String
  description : Option String := none
  area_responsavel : String
  responsible_team : List String
  status : ProjectStatus := ProjectStatus.em_andamento
  risk_level : RiskLevel := RiskLevel.baixo
  start_date : Int
  expected_end_date : Int
  milestones : List Milestone := []
  tags : List String := []
deriving DecidableEq, Repr

/-- `Project.days_until_deadline` from models.py: `None` when the project is
"concluido", otherwise `expected_end_date - today`. -/
def Project.days_until_deadline (today : Int) (p : Project) : Option Int :=
  if p.status = ProjectStatus.concluido then none
  else some (p.expected_end_date - today)

/-- `Project.is_at_risk` from models.py: true when the deadline is defined and
at most 15 days away, otherwise when some milestone is overdue. -/
def Project.is_at_risk (today : Int) (p : Project) : Bool :=
  if (match p.days_until_deadline today with
      | some d => decide (d ≤ 15)
      | none => false) then
    true
  else
    p.milestones.any (fun m => m.is_overdue today)

/-- Alert record produced by the checker: the Python dict
`{"type", "target", "days", "severity", "message"}`. -/
structure Alert where
  type : String
  target : String
  days : Int
  severity : String
  message : String
deriving DecidableEq, Repr

/-- `ALERT_THRESHOLDS['milestone']` from deadline_checker.py. -/
def ALERT_THRESHOLDS_milestone : List Int := [30, 15, 7, 3]

/-- `ALERT_THRESHOLDS['project_deadline']` from deadline_checker.py. -/
def ALERT_THRESHOLDS_project_deadline : List Int := [60, 30, 15, 7]

/-- The `for threshold in ...: if days == threshold: ...; break` loop shape
of deadline_checker.py: the first threshold in list order equal to `days`,
iteration stopping at the first match. -/
def first_matching_threshold (days : Int) : List Int → Option Int
  | [] => none
  | t :: ts => if days = t then some t else first_matching_threshold days ts

/-- `DeadlineChecker._calculate_severity` from deadline_checker.py.  The
source fetches `ALERT_THRESHOLDS.get(alert_type, [30, 15, 7])` into a local
that is never read, so the result depends on `days` alone; the unused
`alert_type` parameter is kept to mirror the signature. -/
def calculate_severity (days : Int) (alert_type : String) : String :=
  if days ≤ 7 then "CRITICO"
  else if days ≤ 15 then "ALTO"
  else if days ≤ 30 then "MEDIO"
  else "BAIXO"

/-- Step 1 of `DeadlineChecker.check_project`: the project-deadline check,
skipped when the project is "concluido" or the deadline is undefined;
otherwise at most one `project_deadline` alert, fired when
`days_until_deadline` equals a threshold exactly (first match wins). -/
def project_deadline_alerts (today : Int) (project : Project) : List Alert :=
  match project.days_until_deadline today with
  | none => []
  | some days =>
    if project.status ≠ ProjectStatus.concluido then
      match first_matching_threshold days ALERT_THRESHOLDS_project_deadline with
      | some _ =>
        [{ type := "project_deadline"
           target := project.name
           days := days
           severity := calculate_severity days ("project")
           message := "Projeto '" ++ project.name ++ "' vence em " ++
             toString days ++ " dias (" ++ toString project.expected_end_date ++ ")" }]
      | none => []
    else []

/-- Step 2 of `DeadlineChecker.check_project`, body of the milestone loop:
skip completed milestones; emit one CRITICO `milestone_overdue` alert when
`days_until < 0`, else at most one `milestone_approaching` alert on an exact
threshold match. -/
def milestone_alerts (today : Int) (project : Project) (milestone : Milestone) :
    List Alert :=
  if milestone.status = "concluido" ∨ milestone.actual_date.isSome then []
  else
    match milestone.days_until today with
    | none => []
    | some days =>
      if days < 0 then
        [{ type := "milestone_overdue"
           target := project.name ++ " > " ++ milestone.title
           days := |days|
           severity := "CRITICO"
           message := "⚠️ MARCO ATRASADO: '" ++ milestone.title ++ "' estava para " ++
             toString milestone.expected_date ++ " (" ++ toString |days| ++
             " dias de atraso)" }]
      else
        match first_matching_threshold days ALERT_THRESHOLDS_milestone with
        | some _ =>
          [{ type := "milestone_approaching"
             target := project.name ++ " > " ++ milestone.title
             days := days
             severity := calculate_severity days ("milestone")
             message := "Marco '" ++ milestone.title ++ "' em " ++ project.name ++
               " vence em " ++ toString days ++ " dias" }]
        | none => []

/-- `DeadlineChecker.check_project`: the project-deadline alerts followed by
the per-milestone alerts, milestones processed in project order. -/
def check_project (today : Int) (project : Project) : List Alert :=
  project_deadline_alerts today project ++
    project.milestones.flatMap (milestone_alerts today project)

/-- The four severity buckets of `batch_check`'s `by_severity` dict, keys
"CRITICO", "ALTO", "MEDIO", "BAIXO". -/
structure SeverityBuckets where
  critico : List Alert := []
  alto : List Alert := []
  medio : List Alert := []
  baixo : List Alert := []
deriving DecidableEq, Repr

/-- `by_severity[alert['severity']].append(alert)`: append to the bucket
named by the alert's severity; `none` models the `KeyError` a severity
outside the four fixed keys would raise. -/
def add_to_bucket (b : SeverityBuckets) (a : Alert) : Option SeverityBuckets :=
  if a.severity = "CRITICO" then some { b with critico := b.critico ++ [a] }
  else if a.severity = "ALTO" then some { b with alto := b.alto ++ [a] }
  else if a.severity = "MEDIO" then some { b with medio := b.medio ++ [a] }
  else if a.severity = "BAIXO" then some { b with baixo := b.baixo ++ [a] }
  else none

/-- The grouping loop of `batch_check` over `all_alerts`. -/
def group_by_severity : List Alert → SeverityBuckets → Option SeverityBuckets
  | [], b => some b
  | a :: rest, b =>
    match add_to_bucket b a with
    | some b2 => group_by_severity rest b2
    | none => none

/-- The consolidated structure returned by `DeadlineChecker.batch_check`;
`generated_at` is the evaluation date (`date.today().isoformat()`). -/
structure BatchReport where
  total_projects : Nat
  projects_at_risk : Nat
  alerts_by_severity : SeverityBuckets
  all_alerts : List Alert
  generated_at : Int
deriving DecidableEq, Repr

/-- `DeadlineChecker.batch_check`: concatenate per-project alerts in input
order, count projects with at least one alert or `is_at_risk`, group the
alerts by severity.  `none` models the `KeyError` path of the grouping. -/
def batch_check (today : Int) (projects : List Project) : Option BatchReport :=
  let all_alerts := projects.flatMap (check_project today)
  let risk_count :=
    (projects.filter (fun p => check_project today p ≠ [] ∨ p.is_at_risk today)).length
  match group_by_severity all_alerts {} with
  | some buckets =>
    some { total_projects := projects.length
           projects_at_risk := risk_count
           alerts_by_severity := buckets
           all_alerts := all_alerts
           generated_at := today }
  | none => none

/-- The pydantic construction path of `Project` with its single field
validator `end_must_be_after_start` from models.py: construction fails with
a validation error when `expected_end_date < start_date`. -/
def mk_project (id name area_responsavel : String)
    (responsible_team : List String) (status : ProjectStatus)
    (start_date expected_end_date : Int) (milestones : List Milestone) :
    Except String Project :=
  if expected_end_date < start_date then
    Except.error ("Data de término deve ser após data de início")
  else
    Except.ok { id := id, name := name, area_responsavel := area_responsavel,
                responsible_team := responsible_team, status := status,
                start_date := start_date, expected_end_date := expected_end_date,
                milestones := milestones }

/-- The four severity keys of the `by_severity` dict. -/
def severity_keys : List String := ["CRITICO", "ALTO", "MEDIO", "BAIXO"]

/-! Concrete entities used by witnesses and counterexamples (evaluation date
fixed at day 100). -/

/-- A pending milestone 5 days overdue on day 100. -/
def wMilestoneOverdue : Milestone :=
  { id := "M1", title := "Levantamento de requisitos", expected_date := 95 }

/-- A pending milestone due in exactly 7 days on day 100. -/
def wMilestoneSoon : Milestone :=
  { id := "M2", title := "Desenvolvimento MVP", expected_date := 107 }

/-- An in-progress project with one overdue and one approaching milestone. -/
def wProject : Project :=
  { id := "PROJ-001", name := "Modernização Sistema X", area_responsavel := "CGIN",
    responsible_team := ["team@cgim.gov.br"], start_date := 70,
    expected_end_date := 120, milestones := [wMilestoneOverdue, wMilestoneSoon] }

/-- An in-progress project whose deadline is exactly 7 days away on day 100. -/
def wProjectD7 : Project :=
  { id := "PROJ-002", name := "Projeto Urgente", area_responsavel := "DNT",
    responsible_team := ["dnt@gov.br"], start_date := 50,
    expected_end_date := 107 }

/-- A "concluido" project that still carries a pending, overdue milestone. -/
def cexDoneProject : Project :=
  { id := "PROJ-DONE", name := "Projeto Concluído", area_responsavel := "CGIN",
    responsible_team := ["team@cgim.gov.br"], status := ProjectStatus.concluido,
    start_date := 0, expected_end_date := 50,
    milestones := [wMilestoneOverdue] }

/-! Helper lemmas about the threshold loop, severities and grouping. -/

theorem first_matching_threshold_eq (d : Int) (l : List Int) :
    first_matching_threshold d l = if d ∈ l then some d else none := by
  induction l with
  | nil => simp [first_matching_threshold]
  | cons t ts ih =>
    by_cases h : d = t <;> simp [first_matching_threshold, h, ih]

theorem calculate_severity_mem (days : Int) (t : String) :
    calculate_severity days t ∈ severity_keys := by
  unfold calculate_severity severity_keys
  split_ifs <;> simp

theorem milestone_alerts_fields (today : Int) (p : Project) (m : Milestone) :
    ∀ a ∈ milestone_alerts today p m,
      (a.type = "milestone_overdue" ∧ a.severity = "CRITICO") ∨
      (a.type = "milestone_approaching" ∧
        a.severity = calculate_severity a.days ("milestone")) := by
  intro a ha
  unfold milestone_alerts at ha
  split at ha
  · simp at ha
  · split at ha
    · simp at ha
    · split at ha
      · left
        simp at ha
        subst ha
        exact ⟨rfl, rfl⟩
      · split at ha
        · right
          simp at ha
          subst ha
          exact ⟨rfl, rfl⟩
        · simp at ha

theorem project_deadline_alerts_fields (today : Int) (p : Project) :
    ∀ a ∈ project_deadline_alerts today p,
      a.type = "project_deadline" ∧
        a.severity = calculate_severity a.days ("project") := by
  intro a ha
  unfold project_deadline_alerts at ha
  split at ha
  · simp at ha
  · split at ha
    · split at ha
      · simp at ha
        subst ha
        exact ⟨rfl, rfl⟩
      · simp at ha
    · simp at ha

theorem project_deadline_alerts_length (today : Int) (p : Project) :
    (project_deadline_alerts today p).length ≤ 1 := by
  unfold project_deadline_alerts
  split
  · simp
  · split
    · split <;> simp
    · simp

theorem check_project_severity (today : Int) (p : Project) :
    ∀ a ∈ check_project today p, a.severity ∈ severity_keys := by
  intro a ha
  unfold check_project at ha
  rcases List.mem_append.mp ha with h | h
  · rw [(project_deadline_alerts_fields today p a h).2]
    exact calculate_severity_mem a.days ("project")
  · rcases List.mem_flatMap.mp h with ⟨m, hm, ham⟩
    rcases milestone_alerts_fields today p m a ham with ⟨_, h2⟩ | ⟨_, h2⟩
    · rw [h2]; simp [severity_keys]
    · rw [h2]; exact calculate_severity_mem a.days ("milestone")

theorem group_by_severity_eq (l : List Alert) (b : SeverityBuckets)
    (h : ∀ a ∈ l, a.severity ∈ severity_keys) :
    group_by_severity l b = some
      { critico := b.critico ++ l.filter (fun a => a.severity == "CRITICO")
        alto := b.alto ++ l.filter (fun a => a.severity == "ALTO")
        medio := b.medio ++ l.filter (fun a => a.severity == "MEDIO")
        baixo := b.baixo ++ l.filter (fun a => a.severity == "BAIXO") } := by
  induction l generalizing b with
  | nil => simp [group_by_severity]
  | cons a rest ih =>
    have hrest : ∀ x ∈ rest, x.severity ∈ severity_keys :=
      fun x hx => h x (List.mem_cons_of_mem a hx)
    have ha := h a (List.mem_cons_self a rest)
    simp only [severity_keys, List.mem_cons, List.not_mem_nil, or_false] at ha
    rcases ha with h1 | h1 | h1 | h1 <;>
      simp [group_by_severity, add_to_bucket, h1, ih _ hrest, List.filter_cons]

theorem filter_severity_partition_length (l : List Alert)
    (h : ∀ a ∈ l, a.severity ∈ severity_keys) :
    (l.filter (fun a => a.severity == "CRITICO")).length +
      (l.filter (fun a => a.severity == "ALTO")).length +
      (l.filter (fun a => a.severity == "MEDIO")).length +
      (l.filter (fun a => a.severity == "BAIXO")).length = l.length := by
  induction l with
  | nil => simp
  | cons a rest ih =>
    have hrest : ∀ x ∈ rest, x.severity ∈ severity_keys :=
      fun x hx => h x (List.mem_cons_of_mem a hx)
    have ha := h a (List.mem_cons_self a rest)
    have hr := ih hrest
    simp only [severity_keys, List.mem_cons, List.not_mem_nil, or_false] at ha
    rcases ha with h1 | h1 | h1 | h1 <;>
      simp [List.filter_cons, h1] <;> omega

theorem batch_check_eq (today : Int) (projects : List Project) :
    batch_check today projects = some
      { total_projects := projects.length
        projects_at_risk := (projects.filter
          (fun p => check_project today p ≠ [] ∨ p.is_at_risk today)).length
        alerts_by_severity :=
          { critico := (projects.flatMap (check_project today)).filter
              (fun a => a.severity == "CRITICO")
            alto := (projects.flatMap (check_project today)).filter
              (fun a => a.severity == "ALTO")
            medio := (projects.flatMap (check_project today)).filter
              (fun a => a.severity == "MEDIO")
            baixo := (projects.flatMap (check_project today)).filter
              (fun a => a.severity == "BAIXO") }
        all_alerts := projects.flatMap (check_project today)
        generated_at := today } := by
  have h : ∀ a ∈ projects.flatMap (check_project today), a.severity ∈ severity_keys := by
    intro a ha
    rcases List.mem_flatMap.mp ha with ⟨p, _, hap⟩
    exact check_project_severity today p a hap
  simp only [batch_check]
  rw [group_by_severity_eq _ _ h]
  simp

/-! Claim theorems. -/

/-- C5: for every day count, `_calculate_severity` returns CRITICO exactly
when days ≤ 7, ALTO exactly when 7 < days ≤ 15, MEDIO exactly when
15 < days ≤ 30, BAIXO otherwise, and the `alert_type` argument has no
influence on the result. -/
theorem severity_banding_spec (days : Int) (alert_type : String) :
    (calculate_severity days alert_type = "CRITICO" ↔ days ≤ 7) ∧
    (calculate_severity days alert_type = "ALTO" ↔ 7 < days ∧ days ≤ 15) ∧
    (calculate_severity days alert_type = "MEDIO" ↔ 15 < days ∧ days ≤ 30) ∧
    (calculate_severity days alert_type = "BAIXO" ↔ 30 < days) ∧
    (∀ other : String, calculate_severity days alert_type =
      calculate_severity days other) := by
  unfold calculate_severity
  split_ifs with h1 h2 h3 <;>
    refine ⟨?_, ?_, ?_, ?_, fun other => rfl⟩ <;> simp <;> omega

theorem severity_banding_spec_witness :
    calculate_severity 5 ("project") = "CRITICO" ∧
      calculate_severity 5 ("project") = calculate_severity 5 ("milestone") :=
  ⟨(severity_banding_spec 5 ("project")).1.mpr (by decide),
    (severity_banding_spec 5 ("project")).2.2.2.2 ("milestone")⟩

/-- C6: `is_at_risk` holds exactly when `days_until_deadline` is defined and
at most 15, or some milestone of the project is overdue; it is a pure
function of the entity state. -/
theorem is_at_risk_spec (today : Int) (p : Project) :
    p.is_at_risk today = true ↔
      ((∃ d, p.days_until_deadline today = some d ∧ d ≤ 15) ∨
        ∃ m ∈ p.milestones, m.is_overdue today = true) := by
  unfold Project.is_at_risk
  rcases h : p.days_until_deadline today with _ | d
  · simp [h, List.any_eq_true]
  · by_cases hd : d ≤ 15 <;> simp [h, hd, List.any_eq_true]

theorem is_at_risk_spec_witness : wProject.is_at_risk 100 = true :=
  (is_at_risk_spec 100 wProject).mpr
    (Or.inr ⟨wMilestoneOverdue, by decide, by decide⟩)

/-- C10: every alert produced by `check_project` carries a severity in the
closed key set {CRITICO, ALTO, MEDIO, BAIXO} (overdue-milestone alerts being
fixed at CRITICO), so the severity grouping of `batch_check` always finds an
existing bucket and `batch_check` never fails on an unknown severity key. -/
theorem severity_closed_spec :
    (∀ (today : Int) (p : Project), ∀ a ∈ check_project today p,
      a.severity ∈ severity_keys ∧
        (a.type = "milestone_overdue" → a.severity = "CRITICO")) ∧
    (∀ (today : Int) (projects : List Project),
      (batch_check today projects).isSome = true) := by
  constructor
  · intro today p a ha
    refine ⟨check_project_severity today p a ha, ?_⟩
    unfold check_project at ha
    rcases List.mem_append.mp ha with h | h
    · intro hty
      rw [(project_deadline_alerts_fields today p a h).1] at hty
      simp at hty
    · rcases List.mem_flatMap.mp h with ⟨m, _, ham⟩
      rcases milestone_alerts_fields today p m a ham with ⟨_, h2⟩ | ⟨h1, _⟩
      · intro _; exact h2
      · intro hty; rw [h1] at hty; simp at hty
  · intro today projects
    rw [batch_check_eq]
    rfl

/-- C1 counterexample: a project with status "concluido" whose pending,
overdue milestone still makes `check_project` return a non-empty alert
list — done status does not suppress milestone alerts. -/
theorem done_project_cex :
    cexDoneProject.status = ProjectStatus.concluido ∧
      check_project 100 cexDoneProject ≠ [] := by
  constructor
  · rfl
  · decide

/-- C1 amended: for a project with status "concluido", `check_project`
skips only the project-deadline check (it emits no `project_deadline`
alert, whatever the deadline); the milestone checks still run, so the
result is exactly the milestone alerts, and it is empty whenever the
project has no milestones. -/
theorem done_project_spec (today : Int) (p : Project)
    (h : p.status = ProjectStatus.concluido) :
    project_deadline_alerts today p = [] ∧
    check_project today p = p.milestones.flatMap (milestone_alerts today p) ∧
    (p.milestones = [] → check_project today p = []) := by
  have h1 : project_deadline_alerts today p = [] := by
    unfold project_deadline_alerts Project.days_until_deadline
    simp [h]
  refine ⟨h1, ?_, ?_⟩
  · unfold check_project
    rw [h1]
    simp
  · intro hm
    unfold check_project
    rw [h1, hm]
    simp

theorem done_project_spec_witness :
    project_deadline_alerts 100 cexDoneProject = [] ∧
    check_project 100 cexDoneProject =
      cexDoneProject.milestones.flatMap (milestone_alerts 100 cexDoneProject) ∧
    (cexDoneProject.milestones = [] → check_project 100 cexDoneProject = []) :=
  done_project_spec 100 cexDoneProject rfl

/-- C2: a milestone with no actual-completion date, status other than
"concluido" and expected date strictly before today contributes exactly one
`milestone_overdue` alert, with severity CRITICO and day count
`today - expected_date`, and that alert reaches the `check_project`
output when the milestone belongs to the project. -/
theorem milestone_overdue_spec (today : Int) (p : Project) (m : Milestone)
    (h_actual : m.actual_date = none) (h_status : m.status ≠ "concluido")
    (h_overdue : m.expected_date < today) :
    ∃ a, milestone_alerts today p m = [a] ∧
      a.type = "milestone_overdue" ∧ a.severity = "CRITICO" ∧
      a.days = today - m.expected_date ∧
      a.target = p.name ++ " > " ++ m.title ∧
      (m ∈ p.milestones → a ∈ check_project today p) := by
  have hd : m.expected_date - today < 0 := by omega
  have habs : |m.expected_date - today| = today - m.expected_date := by
    rw [abs_of_neg hd, neg_sub]
  have heq : milestone_alerts today p m =
      [{ type := "milestone_overdue"
         target := p.name ++ " > " ++ m.title
         days := today - m.expected_date
         severity := "CRITICO"
         message := "⚠️ MARCO ATRASADO: '" ++ m.title ++ "' estava para " ++
           toString m.expected_date ++ " (" ++ toString (today - m.expected_date) ++
           " dias de atraso)" }] := by
    unfold milestone_alerts Milestone.days_until
    simp [h_actual, h_status, hd, habs]
  refine ⟨_, heq, rfl, rfl, rfl, rfl, fun hm => ?_⟩
  unfold check_project
  refine List.mem_append_right _ (List.mem_flatMap.mpr ⟨m, hm, ?_⟩)
  rw [heq]
  exact List.mem_singleton_self _

theorem milestone_overdue_spec_witness :
    ∃ a, milestone_alerts 100 wProject wMilestoneOverdue = [a] ∧
      a.type = "milestone_overdue" ∧ a.severity = "CRITICO" ∧
      a.days = 100 - wMilestoneOverdue.expected_date ∧
      a.target = wProject.name ++ " > " ++ wMilestoneOverdue.title ∧
      (wMilestoneOverdue ∈ wProject.milestones →
        a ∈ check_project 100 wProject) :=
  milestone_overdue_spec 100 wProject wMilestoneOverdue rfl
    (by decide) (by decide)

/-- C3: a milestone with no actual-completion date and status other than
"concluido" whose non-negative `days_until` equals one of the thresholds
{30, 15, 7, 3} contributes exactly one `milestone_approaching` alert, with
that day count and severity given by the banding function; for any other
non-negative `days_until` it contributes no alert. -/
theorem milestone_approaching_spec (today : Int) (p : Project) (m : Milestone)
    (days : Int) (h_actual : m.actual_date = none)
    (h_status : m.status ≠ "concluido")
    (h_days : m.days_until today = some days) (h_nonneg : 0 ≤ days) :
    (days ∈ ALERT_THRESHOLDS_milestone →
      ∃ a, milestone_alerts today p m = [a] ∧
        a.type = "milestone_approaching" ∧ a.days = days ∧
        a.severity = calculate_severity days ("milestone")) ∧
    (days ∉ ALERT_THRESHOLDS_milestone →
      milestone_alerts today p m = []) := by
  have hlt : ¬ days < 0 := by omega
  constructor
  · intro hmem
    refine ⟨{ type := "milestone_approaching"
              target := p.name ++ " > " ++ m.title
              days := days
              severity := calculate_severity days ("milestone")
              message := "Marco '" ++ m.title ++ "' em " ++ p.name ++
                " vence em " ++ toString days ++ " dias" }, ?_, rfl, rfl, rfl⟩
    simp [milestone_alerts, h_days, h_actual, h_status, hlt,
      first_matching_threshold_eq, hmem]
  · intro hmem
    simp [milestone_alerts, h_days, h_actual, h_status, hlt,
      first_matching_threshold_eq, hmem]

theorem milestone_approaching_spec_witness :
    ((7 : Int) ∈ ALERT_THRESHOLDS_milestone →
      ∃ a, milestone_alerts 100 wProject wMilestoneSoon = [a] ∧
        a.type = "milestone_approaching" ∧ a.days = 7 ∧
        a.severity = calculate_severity 7 ("milestone")) ∧
    ((7 : Int) ∉ ALERT_THRESHOLDS_milestone →
      milestone_alerts 100 wProject wMilestoneSoon = []) :=
  milestone_approaching_spec 100 wProject wMilestoneSoon 7 rfl
    (by decide) (by decide) (by decide)

/-- C4: a project not "concluido" with a defined deadline yields at most one
`project_deadline` alert in the whole `check_project` output; the
project-deadline check fires exactly when `days_until_deadline` is one of
{60, 30, 15, 7}; and at exactly 7 days it yields one `project_deadline`
alert with severity CRITICO. -/
theorem project_deadline_spec (today : Int) (p : Project) (days : Int)
    (h_status : p.status ≠ ProjectStatus.concluido)
    (h_days : p.days_until_deadline today = some days) :
    (check_project today p).countP (fun a => a.type == "project_deadline") ≤ 1 ∧
    (project_deadline_alerts today p ≠ [] ↔
      days ∈ ALERT_THRESHOLDS_project_deadline) ∧
    (days = 7 → ∃ a, project_deadline_alerts today p = [a] ∧
      a.type = "project_deadline" ∧ a.days = 7 ∧ a.severity = "CRITICO" ∧
      check_project today p =
        a :: p.milestones.flatMap (milestone_alerts today p)) := by
  refine ⟨?_, ⟨?_, ?_⟩, ?_⟩
  · have hms : (p.milestones.flatMap (milestone_alerts today p)).countP
        (fun a => a.type == "project_deadline") = 0 := by
      rw [List.countP_eq_zero]
      intro a ha
      rcases List.mem_flatMap.mp ha with ⟨m, _, ham⟩
      rcases milestone_alerts_fields today p m a ham with ⟨h1, _⟩ | ⟨h1, _⟩ <;>
        simp [h1]
    unfold check_project
    rw [List.countP_append, hms]
    have := List.countP_le_length (l := project_deadline_alerts today p)
      (fun a => a.type == "project_deadline")
    have := project_deadline_alerts_length today p
    omega
  · intro hne
    by_contra hmem
    exact hne (by
      simp [project_deadline_alerts, h_days, h_status,
        first_matching_threshold_eq, hmem])
  · intro hmem
    simp [project_deadline_alerts, h_days, h_status,
      first_matching_threshold_eq, hmem]
  · intro h7
    subst h7
    have heq : project_deadline_alerts today p =
        [{ type := "project_deadline"
           target := p.name
           days := 7
           severity := calculate_severity 7 ("project")
           message := "Projeto '" ++ p.name ++ "' vence em " ++
             toString (7 : Int) ++ " dias (" ++
             toString p.expected_end_date ++ ")" }] := by
      simp [project_deadline_alerts, h_days, h_status,
        first_matching_threshold_eq, ALERT_THRESHOLDS_project_deadline]
    refine ⟨_, heq, rfl, rfl, rfl, ?_⟩
    unfold check_project
    rw [heq]
    rfl

theorem project_deadline_spec_witness :
    (check_project 100 wProjectD7).countP
      (fun a => a.type == "project_deadline") ≤ 1 ∧
    (project_deadline_alerts 100 wProjectD7 ≠ [] ↔
      (7 : Int) ∈ ALERT_THRESHOLDS_project_deadline) ∧
    ((7 : Int) = 7 → ∃ a, project_deadline_alerts 100 wProjectD7 = [a] ∧
      a.type = "project_deadline" ∧ a.days = 7 ∧ a.severity = "CRITICO" ∧
      check_project 100 wProjectD7 =
        a :: wProjectD7.milestones.flatMap (milestone_alerts 100 wProjectD7)) :=
  project_deadline_spec 100 wProjectD7 7 (by decide) (by decide)

/-- C7: `batch_check` reports `all_alerts` as the concatenation, in
project-iteration order, of the per-project `check_project` results, and
partitions it into the four severity buckets with no loss and no
duplication: each bucket is the order-preserving filter of `all_alerts` by
its severity key, and the bucket lengths sum to the length of
`all_alerts`. -/
theorem batch_partition_spec (today : Int) (projects : List Project) :
    ∃ r, batch_check today projects = some r ∧
      r.all_alerts = projects.flatMap (check_project today) ∧
      r.alerts_by_severity.critico =
        r.all_alerts.filter (fun a => a.severity == "CRITICO") ∧
      r.alerts_by_severity.alto =
        r.all_alerts.filter (fun a => a.severity == "ALTO") ∧
      r.alerts_by_severity.medio =
        r.all_alerts.filter (fun a => a.severity == "MEDIO") ∧
      r.alerts_by_severity.baixo =
        r.all_alerts.filter (fun a => a.severity == "BAIXO") ∧
      r.alerts_by_severity.critico.length + r.alerts_by_severity.alto.length +
        r.alerts_by_severity.medio.length +
        r.alerts_by_severity.baixo.length = r.all_alerts.length := by
  refine ⟨_, batch_check_eq today projects, rfl, rfl, rfl, rfl, rfl, ?_⟩
  apply filter_severity_partition_length
  intro a ha
  rcases List.mem_flatMap.mp ha with ⟨p, _, hap⟩
  exact check_project_severity today p a hap

/-- C8: `batch_check` reports `total_projects` as the length of the input
list and `projects_at_risk` as the number of projects that produced at
least one alert or whose `is_at_risk` property holds; a project with no
alert but `is_at_risk` true still counts. -/
theorem batch_counts_spec (today : Int) (projects : List Project) :
    ∃ r, batch_check today projects = some r ∧
      r.total_projects = projects.length ∧
      r.projects_at_risk = (projects.filter
        (fun p => check_project today p ≠ [] ∨ p.is_at_risk today)).length ∧
      (∀ p ∈ projects, check_project today p = [] →
        p.is_at_risk today = true → 0 < r.projects_at_risk) := by
  refine ⟨_, batch_check_eq today projects, rfl, rfl, ?_⟩
  intro p hp _ hrisk
  have hmem : p ∈ projects.filter
      (fun q => check_project today q ≠ [] ∨ q.is_at_risk today) := by
    rw [List.mem_filter]
    exact ⟨hp, by simp [hrisk]⟩
  simpa using List.length_pos.mpr (List.ne_nil_of_mem hmem)

/-- C9: constructing a `Project` whose expected end date precedes its start
date fails with a validation error; successful construction implies
`start_date ≤ expected_end_date` and yields exactly the given field values;
and evaluation over constructed entities is total — `batch_check` always
returns a defined report. -/
theorem construction_validation_spec (id name area : String)
    (team : List String) (st : ProjectStatus) (sd ed : Int)
    (ms : List Milestone) :
    ((∃ e, mk_project id name area team st sd ed ms = Except.error e) ↔
      ed < sd) ∧
    (∀ p, mk_project id name area team st sd ed ms = Except.ok p →
      sd ≤ ed ∧ p.start_date = sd ∧ p.expected_end_date = ed ∧
        p.milestones = ms ∧ p.status = st) ∧
    (∀ (today : Int) (projects : List Project),
      (batch_check today projects).isSome = true) := by
  refine ⟨?_, ?_, ?_⟩
  · unfold mk_project
    split_ifs with h
    · simp [h]
    · simp
      omega
  · intro p hp
    unfold mk_project at hp
    split_ifs at hp with h
    simp only [Except.ok.injEq] at hp
    exact ⟨by omega, by rw [← hp], by rw [← hp], by rw [← hp], by rw [← hp]⟩
  · intro today projects
    rw [batch_check_eq]
    rfl

theorem construction_validation_spec_witness :
    ((∃ e, mk_project ("PROJ-X") ("X") ("CGIN") [] ProjectStatus.em_andamento
        10 5 [] = Except.error e) ↔ (5 : Int) < 10) ∧
    (∀ p, mk_project ("PROJ-X") ("X") ("CGIN") [] ProjectStatus.em_andamento
        10 5 [] = Except.ok p →
      (10 : Int) ≤ 5 ∧ p.start_date = 10 ∧ p.expected_end_date = 5 ∧
        p.milestones = [] ∧ p.status = ProjectStatus.em_andamento) ∧
    (∀ (today : Int) (projects : List Project),
      (batch_check today projects).isSome = true) :=
  construction_validation_spec ("PROJ-X") ("X") ("CGIN") []
    ProjectStatus.em_andamento 10 5 []

end ProjectMonitor
